import Mathlib

/-!
Verification of the vote-count Telegram bot (`VoteCount_bot(public).py`).

The development shallowly embeds the bot's extraction engine (`extract_votes`),
its per-user session store, and the conversation state machine handlers.
Strings are modelled over ASCII (all catalog data and menu tokens are ASCII);
Python's `re` module semantics for the one pattern used by the code are
implemented directly as a backtracking matcher.
-/

set_option maxHeartbeats 1600000
set_option maxRecDepth 100000

namespace VoteBot

/-- ASCII whitespace, as recognised by Python's `str.strip` and the regex
class `\s` (restricted to the ASCII fragment, which covers all inputs the
bot's catalog and menus can produce). -/
def isSpaceChar (c : Char) : Bool :=
  c = ' ' || c = '\t' || c = '\n' || c = '\r' || c = Char.ofNat 11 || c = Char.ofNat 12

/-- Python `str.strip()` on a character list. -/
def pyStripList (l : List Char) : List Char :=
  ((l.dropWhile isSpaceChar).reverse.dropWhile isSpaceChar).reverse

/-- Python `str.strip()`. -/
def pyStrip (s : String) : String := String.mk (pyStripList s.toList)

/-- Helper for `collapseWs`: the boolean records whether the previous kept
character was part of a whitespace run. -/
def collapseWsAux : Bool → List Char → List Char
  | _, [] => []
  | prevSpace, c :: rest =>
    if isSpaceChar c then
      if prevSpace then collapseWsAux true rest
      else ' ' :: collapseWsAux true rest
    else c :: collapseWsAux false rest

/-- Python `re.sub(r"\s+", " ", line)`: collapse every maximal whitespace run
to a single space. -/
def collapseWs (l : List Char) : List Char := collapseWsAux false l

/-- Split a character stream at line boundaries (`\n` or `\r`), modelling
Python `str.splitlines()`.  (Python drops a trailing empty line and treats
`\r\n` as one boundary; both differences only produce extra empty lines here,
and every use site in the bot ignores empty lines.) -/
def splitLinesAux : List Char → List Char → List String
  | acc, [] => [String.mk acc.reverse]
  | acc, c :: rest =>
    if c = '\n' ∨ c = '\r' then String.mk acc.reverse :: splitLinesAux [] rest
    else splitLinesAux (c :: acc) rest

/-- Python `text.splitlines()`. -/
def splitLines (s : String) : List String := splitLinesAux [] s.toList

/-- Python `str.lower()` (ASCII). -/
def lowerStr (s : String) : String := String.mk (s.toList.map Char.toLower)

/-- Python `str.isdigit()` on a character list: nonempty and all digits. -/
def pyIsdigit (l : List Char) : Bool := !l.isEmpty && l.all Char.isDigit

/-- Python `int(...)` on a string of decimal digits. -/
def digitsToNat (l : List Char) : Nat := l.foldl (fun n c => n * 10 + (c.toNat - 48)) 0

/-- Lookup in a Python-dict model (association list in insertion order). -/
def dictLookup (k : String) : List (String × Nat) → Option Nat
  | [] => none
  | (k', v) :: rest => if k' = k then some v else dictLookup k rest

/-- Python `d[k] = v`: replace in place if the key exists, else append. -/
def dictInsert (k : String) (v : Nat) : List (String × Nat) → List (String × Nat)
  | [] => [(k, v)]
  | (k', v') :: rest => if k' = k then (k', v) :: rest else (k', v') :: dictInsert k v rest

/-- Python `k in d`. -/
def dictMem (k : String) (d : List (String × Nat)) : Bool := d.any (fun p => p.1 = k)

/-- Python `del d[k]`. -/
def dictDelete (k : String) (d : List (String × Nat)) : List (String × Nat) :=
  d.filter (fun p => p.1 ≠ k)

/-- Python `d.update(new)`: insert the entries of `new` in order. -/
def dictUpdate (d new : List (String × Nat)) : List (String × Nat) :=
  new.foldl (fun acc p => dictInsert p.1 p.2 acc) d

/-- Python `s.replace(pat, repl)` on character lists: replace every
non-overlapping occurrence of a nonempty pattern, scanning left to right.
Structured on fuel so that it reduces in the kernel; `fuel = l.length`
suffices because every step consumes at least one character.  (Python's
corner case of an empty pattern never arises: the bot only replaces the
literal prefixes `edit_`, `remove_`, `region_` and `district_`.) -/
def replaceAllAux (pat repl : List Char) : Nat → List Char → List Char
  | _, [] => []
  | 0, l => l
  | fuel + 1, c :: rest =>
    if pat.isPrefixOf (c :: rest) && !pat.isEmpty then
      repl ++ replaceAllAux pat repl fuel ((c :: rest).drop pat.length)
    else c :: replaceAllAux pat repl fuel rest

/-- Python `s.replace(pat, repl)` on character lists. -/
def replaceAll (pat repl l : List Char) : List Char := replaceAllAux pat repl l.length l

/-- Python `s.replace(pat, repl)`. -/
def pyReplace (s pat repl : String) : String :=
  String.mk (replaceAll pat.toList repl.toList s.toList)

/-- Python `s.startswith(pre)`. -/
def pyStartswith (s pre : String) : Bool := pre.toList.isPrefixOf s.toList

/-! ## The extraction engine (`extract_votes`) -/

/-- Characters of the regex class `[A-Za-z\.\-\s]` (the name part). -/
def isNameChar (c : Char) : Bool := c.isAlpha || c = '.' || c = '-' || isSpaceChar c

/-- Characters of the regex class `[:\s]` (the separator). -/
def isSepChar (c : Char) : Bool := c = ':' || isSpaceChar c

/-- Characters of the regex class `[\d,]` (the vote part). -/
def isDigitComma (c : Char) : Bool := c.isDigit || c = ','

/-- Try to match `[:\s]+([\d,]+)` at the start of `rest`: a greedy nonempty
separator run followed by a greedy nonempty digits-and-commas run.  (Greedy
matching with backtracking reduces to exactly this, because a shortened
separator run ends just before another separator character, which can never
start the digit group.) -/
def sepDigits (rest : List Char) : Option (List Char) :=
  let sep := rest.takeWhile isSepChar
  let rest2 := rest.dropWhile isSepChar
  if sep.isEmpty then none
  else
    match rest2 with
    | [] => none
    | c :: _ => if isDigitComma c then some (rest2.takeWhile isDigitComma) else none

/-- Backtracking engine for Python's
`re.match(r"([A-Za-z\.\-\s]+)[:\s]+([\d,]+)", s)`:
the name group is extended greedily; on failure of the remainder the engine
retries with the name group ending at the current position, preferring the
longest name group, exactly as Python's regex engine does.  Returns the text
of the two capture groups. -/
def matchFrom (nameRev : List Char) (rest : List Char) : Option (List Char × List Char) :=
  match rest with
  | [] => none
  | c :: cs =>
    if isNameChar c then
      match matchFrom (c :: nameRev) cs with
      | some r => some r
      | none =>
        if nameRev.isEmpty then none
        else
          match sepDigits rest with
          | some ds => some (nameRev.reverse, ds)
          | none => none
    else
      if nameRev.isEmpty then none
      else
        match sepDigits rest with
        | some ds => some (nameRev.reverse, ds)
        | none => none

/-- `re.match(r"([A-Za-z\.\-\s]+)[:\s]+([\d,]+)", s)`, returning the two
capture groups. -/
def reMatchLine (s : List Char) : Option (List Char × List Char) := matchFrom [] s

/-- The per-line parsing stage of `extract_votes`, up to and including the
integer parse: whitespace normalisation, the regex match, the
comma-stripping of the vote group and the `isdigit` check.  Returns
`(raw_name, vote_count)` exactly when the Python loop body reaches the
fuzzy-matching step. -/
def parseLine (line : String) : Option (String × Nat) :=
  let clean_line := pyStrip (String.mk (collapseWs line.toList))
  match reMatchLine clean_line.toList with
  | none => none
  | some (g1, g2) =>
    let raw_name := pyStrip (String.mk g1)
    let vote_str := g2.filter (fun c => c ≠ ',')
    if pyIsdigit vote_str then some (raw_name, digitsToNat vote_str) else none

/-- `Levenshtein.distance(a, b)` of the python-Levenshtein library:
unit-cost edit distance. -/
def levDist (a b : String) : Nat :=
  levenshtein Levenshtein.defaultCost a.toList b.toList

/-- The candidate catalog (`DEFAULT_CANDIDATES`). -/
def DEFAULT_CANDIDATES : List String :=
  ["Tobias", "Chilungo", "Chakwera", "Nankhumwa", "Bandawe", "Banda",
   "Muluzi", "Kaliya", "Mutharika", "Mwenifumbo", "Kabambe", "Chibambo",
   "Swira", "Mbewe", "Chilumpha", "Chipojola", "Dube"]

/-- The region list (`REGIONS`). -/
def REGIONS : List String := ["Northern", "Central", "Southern"]

/-- One iteration of the fuzzy-matching loop in `extract_votes`: keep the
current `(best_match, min_distance)` unless the candidate's case-insensitive
distance is strictly smaller.  `none` models Python's initial
`None` / `float("inf")`. -/
def fuzzyStep (raw_name : String) (acc : Option String × Option Nat) (candidate : String) :
    Option String × Option Nat :=
  let dist := levDist (lowerStr raw_name) (lowerStr candidate)
  match acc.2 with
  | none => (some candidate, some dist)
  | some m => if dist < m then (some candidate, some dist) else acc

/-- The fuzzy-matching loop of `extract_votes` over the whole catalog. -/
def fuzzyBest (raw_name : String) : Option String × Option Nat :=
  DEFAULT_CANDIDATES.foldl (fuzzyStep raw_name) (none, none)

/-- The full per-line pipeline of `extract_votes`: parse, fuzzy-match, and
apply the `min_distance <= 2` acceptance threshold.  Returns the
`(best_match, vote_count)` pair recorded into the result dict, or `none`
when the line is discarded. -/
def lineResolve (line : String) : Option (String × Nat) :=
  match parseLine line with
  | none => none
  | some (raw_name, vote_count) =>
    match fuzzyBest raw_name with
    | (some best, some m) => if m ≤ 2 then some (best, vote_count) else none
    | _ => none

/-- The loop body of `extract_votes`: record the accepted pair (last write
wins via `dictInsert`), or keep `matched` unchanged for a discarded line. -/
def lineStep (matched : List (String × Nat)) (line : String) : List (String × Nat) :=
  match lineResolve line with
  | some (best, v) => dictInsert best v matched
  | none => matched

/-- `lines = [line.strip() for line in text.splitlines() if line.strip()]`. -/
def linesOf (text : String) : List String :=
  ((splitLines text).map pyStrip).filter (fun l => l ≠ "")

/-- `extract_votes(text)`: the result dict after processing every line. -/
def extract_votes (text : String) : List (String × Nat) :=
  (linesOf text).foldl lineStep []

/-! ## Sessions, the session store, and external collaborators -/

/-- The states of the conversation machine (`range(11)` in the source) plus
the terminal `ConversationHandler.END`. -/
inductive BotState
  | CHOOSE_INPUT_MODE | WAIT_FOR_IMAGE | WAIT_FOR_TEXT | EDIT_MENU | BULK_EDIT_ALL
  | EDIT_SINGLE_CANDIDATE | ADD_CANDIDATE_NAME | REMOVE_CANDIDATE_NAME
  | SELECT_REGION | SELECT_DISTRICT | CONFIRM_OVERRIDE | END
  deriving DecidableEq, Repr

/-- One user's session dict.  `candidate_to_edit` is `none` when the key is
absent (Python reads it with `.get` and removes it with `.pop`). -/
structure Session where
  candidates : List (String × Nat)
  region : Option String
  district : Option String
  votes_confirmed : Bool
  candidate_to_edit : Option String
  deriving DecidableEq, Repr

/-- The global `user_sessions` dict, keyed by user id. -/
abbrev Store := List (Nat × Session)

/-- `user_sessions.get(uid)` / `user_sessions[uid]` lookup. -/
def storeGet : Store → Nat → Option Session
  | [], _ => none
  | (u, s) :: rest, uid => if u = uid then some s else storeGet rest uid

/-- `user_sessions.pop(uid, None)`. -/
def storePop (st : Store) (uid : Nat) : Store := st.filter (fun p => p.1 ≠ uid)

/-- `user_sessions[uid] = sess`. -/
def storeSet : Store → Nat → Session → Store
  | [], uid, sess => [(uid, sess)]
  | (u, s') :: rest, uid, sess =>
    if u = uid then (u, sess) :: rest else (u, s') :: storeSet rest uid sess

/-- Python truthiness of an optional string (`None` and `""` are falsy). -/
def pyTruthy : Option String → Bool
  | none => false
  | some s => s ≠ ""

/-- Outcomes of the three external collaborators during one event:
`ocrOutcome` is the text recovered by `ocr_image` (`none` for a failed call
or one with no parsed results), `districtsQuery` is the raw response of the
already-submitted-districts query (`none` when the request raises), and
`sheetSuccess`/`sheetMessage` model the dict returned by
`send_to_google_sheet` (a transport error yields no `success` key, i.e.
`sheetSuccess = false`). -/
structure World where
  ocrOutcome : Option String
  districtsQuery : Option (List String)
  sheetSuccess : Bool
  sheetMessage : Option String
  deriving DecidableEq, Repr

/-- `get_submitted_districts()`: lower-cases the returned names; any
exception is caught and turned into the empty list. -/
def get_submitted_districts (w : World) : List String :=
  match w.districtsQuery with
  | some districts => districts.map lowerStr
  | none => []

/-- Uncaught Python exceptions a handler can raise. -/
inductive PyErr
  | keyError
  deriving DecidableEq, Repr

/-- What one handler invocation does: the new store, the state it returns,
and the texts it sends to the user (in order). -/
structure HandlerResult where
  store : Store
  state : BotState
  messages : List String
  deriving DecidableEq, Repr

/-- A handler either completes or raises. -/
abbrev HRes := Except PyErr HandlerResult

/-- Prepend a message already sent before a nested call's own messages. -/
def prependMsg (m : String) : HRes → HRes
  | .ok r => .ok { r with messages := m :: r.messages }
  | .error e => .error e

/-- `"\n".join(f"{k}: {v}" for k, v in votes.items())`. -/
def renderVotes (votes : List (String × Nat)) : String :=
  String.intercalate "\n" (votes.map (fun p => p.1 ++ ": " ++ Nat.repr p.2))

/-- The characters escaped by `escape_markdown_v2`. -/
def escapeChars : List Char := "_*[]()~`>#+-=|\x7b\x7d.!".toList

/-- `escape_markdown_v2(text)`: prefix each special character with a
backslash. -/
def escape_markdown_v2 (s : String) : String :=
  String.mk (s.toList.foldr
    (fun c acc => if escapeChars.contains c then '\\' :: c :: acc else c :: acc) [])

/-- Group a reversed digit string in threes with commas (Python's
`f"{n:,}"`). -/
def commasRev : List Char → List Char
  | a :: b :: c :: d :: rest => a :: b :: c :: ',' :: commasRev (d :: rest)
  | l => l

/-- Python `f"{n:,}"`: decimal with thousands separators. -/
def commaFormat (n : Nat) : String :=
  String.mk (commasRev (Nat.repr n).toList.reverse).reverse

/-- Insert into a list sorted by Python's lexicographic string order. -/
def insertSorted (x : String) : List String → List String
  | [] => [x]
  | y :: rest => if y < x then y :: insertSorted x rest else x :: y :: rest

/-- Python `sorted(...)` on strings. -/
def sortStrings (l : List String) : List String := l.foldr insertSorted []

/-- `format_vote_results(votes)`: candidates sorted by name, counts with
thousands separators, each line Markdown-escaped. -/
def format_vote_results (votes : List (String × Nat)) : String :=
  String.intercalate "\n"
    ((sortStrings (votes.map (fun p => p.1))).map
      (fun c => escape_markdown_v2 (c ++ ": " ++ commaFormat ((dictLookup c votes).getD 0))))

/-! ## The conversation handlers -/

/-- `/start`: create (or overwrite) the user's session and prompt for the
input mode. -/
def start (st : Store) (uid : Nat) : HRes :=
  .ok { store := storeSet st uid
          { candidates := DEFAULT_CANDIDATES.map (fun c => (c, 0)),
            region := none, district := none, votes_confirmed := false,
            candidate_to_edit := none },
        state := .CHOOSE_INPUT_MODE,
        messages := ["Welcome to the Vote Count Bot!\nChoose input mode:"] }

/-- Handler for `CHOOSE_INPUT_MODE` callbacks. -/
def choose_input_mode_handler (st : Store) (uid : Nat) (data : String) : HRes :=
  if data = "mode_image" then
    .ok ⟨st, .WAIT_FOR_IMAGE, ["Please send a photo of the vote count sheet."]⟩
  else if data = "mode_text" then
    .ok ⟨st, .WAIT_FOR_TEXT, ["Please paste the text containing vote counts."]⟩
  else if data = "cancel" then
    .ok ⟨storePop st uid, .END, ["Operation cancelled. Use /start to begin again."]⟩
  else
    .ok ⟨st, .CHOOSE_INPUT_MODE, ["Please choose a valid option."]⟩

/-- Handler for a photo in `WAIT_FOR_IMAGE` (the dispatcher only routes
photo updates here, so the `if not update.message.photo` guard of the
source is vacuous).  An empty OCR text is falsy in Python and therefore
counts as an OCR failure. -/
def receive_photo_handler (w : World) (st : Store) (uid : Nat) : HRes :=
  match w.ocrOutcome with
  | none =>
    .ok ⟨st, .WAIT_FOR_IMAGE,
      ["Processing image, please wait...",
       "OCR failed to extract text. Please try again or send text directly."]⟩
  | some text =>
    if text = "" then
      .ok ⟨st, .WAIT_FOR_IMAGE,
        ["Processing image, please wait...",
         "OCR failed to extract text. Please try again or send text directly."]⟩
    else
      let votes := extract_votes text
      if votes.isEmpty then
        .ok ⟨st, .WAIT_FOR_TEXT,
          ["Processing image, please wait...",
           "Could not find votes in the text. Please enter votes manually."]⟩
      else
        match storeGet st uid with
        | none => .error .keyError
        | some sess =>
          .ok ⟨storeSet st uid { sess with candidates := votes }, .EDIT_MENU,
            ["Processing image, please wait...", "Parsed votes:\n" ++ renderVotes votes]⟩

/-- Handler for free text in `WAIT_FOR_TEXT`. -/
def receive_text_handler (st : Store) (uid : Nat) (text : String) : HRes :=
  let votes := extract_votes text
  if votes.isEmpty then
    .ok ⟨st, .WAIT_FOR_TEXT, ["Could not parse votes from text. Please try again."]⟩
  else
    match storeGet st uid with
    | none => .error .keyError
    | some sess =>
      .ok ⟨storeSet st uid { sess with candidates := votes }, .EDIT_MENU,
        ["Parsed votes:\n" ++ renderVotes votes]⟩

/-- Handler for `EDIT_MENU` callbacks. -/
def edit_menu_handler (st : Store) (uid : Nat) (action : String) : HRes :=
  if action = "bulk_edit" then
    .ok ⟨st, .BULK_EDIT_ALL,
      ["Send all candidates and votes in the format:\nCandidate: Votes\nOne per line.\nExample:\nChakwera: 12345\nMutharika: 67890"]⟩
  else if action = "edit_individual" then
    match storeGet st uid with
    | none => .error .keyError
    | some _ => .ok ⟨st, .EDIT_SINGLE_CANDIDATE, ["Select a candidate to edit:"]⟩
  else if action = "add_candidate" then
    .ok ⟨st, .ADD_CANDIDATE_NAME, ["Send the new candidate\x27s name:"]⟩
  else if action = "remove_candidate" then
    match storeGet st uid with
    | none => .error .keyError
    | some _ => .ok ⟨st, .REMOVE_CANDIDATE_NAME, ["Select a candidate to remove:"]⟩
  else if action = "submit_votes" then
    .ok ⟨st, .SELECT_REGION, ["Choose the region for this vote count:"]⟩
  else if action = "back_edit_menu" then
    match storeGet st uid with
    | none => .error .keyError
    | some sess => .ok ⟨st, .EDIT_MENU, ["Current votes:\n" ++ renderVotes sess.candidates]⟩
  else if action = "cancel" then
    .ok ⟨storePop st uid, .END, ["Operation cancelled. Use /start to begin again."]⟩
  else
    .ok ⟨st, .EDIT_MENU, ["Please select a valid option."]⟩

/-- Split a character list at the first `:`; `none` when there is none
(`':' not in line`). -/
def splitFirstColon : List Char → Option (List Char × List Char)
  | [] => none
  | c :: rest =>
    if c = ':' then some ([], rest)
    else (splitFirstColon rest).map (fun p => (c :: p.1, p.2))

/-- Handler for free text in `BULK_EDIT_ALL`: exact-name `name:count`
parsing (no fuzzy matching), merged into the tally by key overwrite. -/
def bulk_edit_all_handler (st : Store) (uid : Nat) (rawText : String) : HRes :=
  let text := pyStrip rawText
  let new_votes := (splitLines text).foldl
    (fun acc line =>
      match splitFirstColon line.toList with
      | none => acc
      | some (n, v) =>
        let name := pyStrip (String.mk n)
        let val := pyStripList v
        if pyIsdigit val then dictInsert name (digitsToNat val) acc else acc)
    []
  if new_votes.isEmpty then
    .ok ⟨st, .BULK_EDIT_ALL, ["No valid candidate votes found. Please try again."]⟩
  else
    match storeGet st uid with
    | none => .error .keyError
    | some sess =>
      let updated := dictUpdate sess.candidates new_votes
      .ok ⟨storeSet st uid { sess with candidates := updated }, .EDIT_MENU,
        ["Updated votes:\n" ++ renderVotes updated]⟩

/-- Handler for `EDIT_SINGLE_CANDIDATE` callbacks: select the edit target.
`back_edit_menu` re-enters `edit_menu_handler` with the same token, exactly
as the source forwards the whole update. -/
def edit_single_candidate_handler (st : Store) (uid : Nat) (data : String) : HRes :=
  if pyStartswith data "edit_" then
    let candidate := pyReplace data "edit_" ""
    match storeGet st uid with
    | none => .error .keyError
    | some sess =>
      .ok ⟨storeSet st uid { sess with candidate_to_edit := some candidate },
        .EDIT_SINGLE_CANDIDATE, ["Send new vote count for " ++ candidate ++ ":"]⟩
  else if data = "back_edit_menu" then
    edit_menu_handler st uid data
  else if data = "cancel" then
    .ok ⟨storePop st uid, .END, ["Operation cancelled. Use /start to begin again."]⟩
  else
    .ok ⟨st, .EDIT_SINGLE_CANDIDATE, ["Please select a valid candidate or option."]⟩

/-- Handler for free text in `EDIT_SINGLE_CANDIDATE`: the new count for the
previously selected target (an absent or empty target is falsy in Python
and routes back to the edit menu). -/
def receive_single_candidate_vote (st : Store) (uid : Nat) (rawText : String) : HRes :=
  match storeGet st uid with
  | none => .error .keyError
  | some sess =>
    match sess.candidate_to_edit with
    | none => .ok ⟨st, .EDIT_MENU, ["No candidate selected. Returning to edit menu."]⟩
    | some candidate =>
      if candidate = "" then
        .ok ⟨st, .EDIT_MENU, ["No candidate selected. Returning to edit menu."]⟩
      else
        let text := pyStrip rawText
        if !pyIsdigit text.toList then
          .ok ⟨st, .EDIT_SINGLE_CANDIDATE, ["Please send a valid integer vote count."]⟩
        else
          .ok ⟨storeSet st uid
                 { sess with
                   candidates := dictInsert candidate (digitsToNat text.toList) sess.candidates,
                   candidate_to_edit := none },
            .EDIT_MENU,
            ["Updated " ++ candidate ++ " to " ++ text ++ " votes."]⟩

/-- Handler for free text in `ADD_CANDIDATE_NAME` (note the short-circuit:
an empty name is rejected before the session dict is touched). -/
def add_candidate_name_handler (st : Store) (uid : Nat) (rawText : String) : HRes :=
  let new_name := pyStrip rawText
  if new_name = "" then
    .ok ⟨st, .ADD_CANDIDATE_NAME, ["Invalid or existing candidate name. Try again."]⟩
  else
    match storeGet st uid with
    | none => .error .keyError
    | some sess =>
      if dictMem new_name sess.candidates then
        .ok ⟨st, .ADD_CANDIDATE_NAME, ["Invalid or existing candidate name. Try again."]⟩
      else
        .ok ⟨storeSet st uid { sess with candidates := dictInsert new_name 0 sess.candidates },
          .EDIT_MENU,
          ["Added candidate \x27" ++ new_name ++ "\x27.\nYou can now edit their votes."]⟩

/-- Handler for `REMOVE_CANDIDATE_NAME` callbacks. -/
def remove_candidate_name_handler (st : Store) (uid : Nat) (data : String) : HRes :=
  if pyStartswith data "remove_" then
    let candidate := pyReplace data "remove_" ""
    match storeGet st uid with
    | none => .error .keyError
    | some sess =>
      if dictMem candidate sess.candidates then
        .ok ⟨storeSet st uid { sess with candidates := dictDelete candidate sess.candidates },
          .EDIT_MENU, ["Candidate \x27" ++ candidate ++ "\x27 removed."]⟩
      else
        .ok ⟨st, .EDIT_MENU, ["Candidate not found. Returning to edit menu."]⟩
  else if data = "back_edit_menu" then
    edit_menu_handler st uid data
  else if data = "cancel" then
    .ok ⟨storePop st uid, .END, ["Operation cancelled. Use /start to begin again."]⟩
  else
    .ok ⟨st, .REMOVE_CANDIDATE_NAME, ["Please select a valid candidate or option."]⟩

/-- `submit_data`: precondition check, hand-off to the sheet, teardown. -/
def submit_data (w : World) (st : Store) (uid : Nat) : HRes :=
  match storeGet st uid with
  | none =>
    .ok ⟨st, .END, ["‚ö†Ô∏è Session expired. Use /start to begin again."]⟩
  | some data =>
    let votes := data.candidates
    let region := data.region
    let district := data.district
    if !(pyTruthy region && pyTruthy district && !votes.isEmpty) then
      .ok ⟨st, .END, ["‚ùå Incomplete data. Please restart with /start."]⟩
    else
      let resultMsg :=
        if w.sheetSuccess then
          "‚úÖ *Results Submitted For " ++ district.getD "" ++
            "*\n\nüìÉ *Parsed Vote Results:*\n\n" ++ format_vote_results votes
        else
          "‚ùå Failed to submit data: " ++ w.sheetMessage.getD "Unknown error" ++
            "\nPlease try again."
      .ok ⟨storePop st uid, .END, ["‚è≥ Submitting data, please wait...", resultMsg]⟩

/-- Handler for `SELECT_REGION` callbacks. -/
def select_region_handler (w : World) (st : Store) (uid : Nat) (data : String) : HRes :=
  if pyStartswith data "region_" then
    let region := pyReplace data "region_" ""
    match storeGet st uid with
    | none => .error .keyError
    | some sess =>
      -- get_submitted_districts is called only to annotate the keyboard
      .ok ⟨storeSet st uid { sess with region := some region }, .SELECT_DISTRICT,
        ["Region \x27" ++ region ++ "\x27 selected.\nNow choose a district:"]⟩
  else if data = "cancel" then
    .ok ⟨storePop st uid, .END, ["Operation cancelled. Use /start to begin again."]⟩
  else
    .ok ⟨st, .SELECT_REGION, ["Please select a region."]⟩

/-- Handler for `SELECT_DISTRICT` callbacks: stores the district, routes to
override confirmation when the district already holds data, else submits
directly.  The invalid branch rebuilds the keyboard from
`user_sessions[user_id]["region"]` and therefore dereferences the session. -/
def select_district_handler (w : World) (st : Store) (uid : Nat) (data : String) : HRes :=
  if pyStartswith data "district_" then
    let district := pyReplace data "district_" ""
    match storeGet st uid with
    | none => .error .keyError
    | some sess =>
      let st' := storeSet st uid { sess with district := some district }
      let submitted := get_submitted_districts w
      if submitted.contains (lowerStr district) then
        .ok ⟨st', .CONFIRM_OVERRIDE,
          ["Data already exists for district \x27" ++ district ++ "\x27. Override?"]⟩
      else
        prependMsg ("District \x27" ++ district ++ "\x27 selected. Submitting data...")
          (submit_data w st' uid)
  else if data = "back_to_regions" then
    .ok ⟨st, .SELECT_REGION, ["Select the region for this vote count:"]⟩
  else if data = "cancel" then
    .ok ⟨storePop st uid, .END, ["Operation cancelled. Use /start to begin again."]⟩
  else
    match storeGet st uid with
    | none => .error .keyError
    | some _ => .ok ⟨st, .SELECT_DISTRICT, ["Please select a district."]⟩

/-- Handler for `CONFIRM_OVERRIDE` callbacks. -/
def confirm_override_handler (w : World) (st : Store) (uid : Nat) (data : String) : HRes :=
  if data = "override_yes" then
    prependMsg "Overriding previous data. Submitting now..." (submit_data w st uid)
  else if data = "override_no" then
    match storeGet st uid with
    | none => .error .keyError
    | some _ =>
      -- the already-submitted set is re-fetched for the keyboard
      .ok ⟨st, .SELECT_DISTRICT, ["Choose another district:"]⟩
  else
    .ok ⟨st, .CONFIRM_OVERRIDE, ["Please choose an option."]⟩

/-- `/cancel` (a fallback, reachable from every state). -/
def cancel_handler (st : Store) (uid : Nat) : HRes :=
  .ok ⟨storePop st uid, .END, ["Operation cancelled. Use /start to begin again. üôè"]⟩

/-- The unrecognized-command fallback. -/
def fallback_handler (st : Store) (_uid : Nat) : HRes :=
  .ok ⟨st, .END, ["Sorry, I didn\x27t understand that. Please use /start to begin."]⟩

/-- Inbound events: a command (`/name`), a plain text message, a menu
callback carrying its token, or a photo. -/
inductive Event
  | command (name : String)
  | message (text : String)
  | callback (data : String)
  | photo
  deriving DecidableEq, Repr

/-- The `ConversationHandler` dispatch: `/start` re-enters from anywhere
(`allow_reentry=True`), `/cancel` and other commands hit the fallbacks from
every state, per-state handlers receive only the event shapes their
registration filters accept, and an event no handler matches is ignored
(state and store untouched). -/
def step (w : World) (st : Store) (uid : Nat) (state : BotState) (ev : Event) : HRes :=
  match ev with
  | .command name =>
    if name = "start" then start st uid
    else if name = "cancel" then cancel_handler st uid
    else fallback_handler st uid
  | .callback data =>
    match state with
    | .CHOOSE_INPUT_MODE => choose_input_mode_handler st uid data
    | .EDIT_MENU => edit_menu_handler st uid data
    | .EDIT_SINGLE_CANDIDATE => edit_single_candidate_handler st uid data
    | .REMOVE_CANDIDATE_NAME => remove_candidate_name_handler st uid data
    | .SELECT_REGION => select_region_handler w st uid data
    | .SELECT_DISTRICT => select_district_handler w st uid data
    | .CONFIRM_OVERRIDE => confirm_override_handler w st uid data
    | _ => .ok ⟨st, state, []⟩
  | .message text =>
    match state with
    | .WAIT_FOR_TEXT => receive_text_handler st uid text
    | .BULK_EDIT_ALL => bulk_edit_all_handler st uid text
    | .EDIT_SINGLE_CANDIDATE => receive_single_candidate_vote st uid text
    | .ADD_CANDIDATE_NAME => add_candidate_name_handler st uid text
    | _ => .ok ⟨st, state, []⟩
  | .photo =>
    match state with
    | .WAIT_FOR_IMAGE => receive_photo_handler w st uid
    | _ => .ok ⟨st, state, []⟩

/-! ## Fixtures used by concrete instances -/

/-- A session with a complete tally, region and district, and an edit target
selected. -/
def sessFull : Session :=
  { candidates := [("Chakwera", 12345), ("Mutharika", 9000)],
    region := some "Central", district := some "Lilongwe",
    votes_confirmed := false, candidate_to_edit := some "Banda" }

/-- A session fresh enough to be incomplete: no region or district yet. -/
def sessBare : Session :=
  { candidates := [("Chakwera", 5)], region := none, district := none,
    votes_confirmed := false, candidate_to_edit := none }

/-- A world in which every external collaborator fails. -/
def wFail : World :=
  { ocrOutcome := none, districtsQuery := none, sheetSuccess := false,
    sheetMessage := some "HTTP 500" }

/-- A world in which every external collaborator succeeds. -/
def wOk : World :=
  { ocrOutcome := some "Chakwera: 7", districtsQuery := some ["Lilongwe"],
    sheetSuccess := true, sheetMessage := none }

/-- The last count that a list of resolved `(catalog_name, count)` pairs
assigns to the name `b` (specification-side companion for the
last-write-wins dict semantics). -/
def lastFor (b : String) : List (String × Nat) → Option Nat
  | [] => none
  | (k, v) :: rest =>
    match lastFor b rest with
    | some w => some w
    | none => if k = b then some v else none

/-- The case-insensitive distance the fuzzy loop computes for one catalog
entry. -/
def candDist (raw c : String) : Nat := levDist (lowerStr raw) (lowerStr c)

/-- The running minimum of the fuzzy loop after processing `l`, starting
from `m₀`. -/
def runMin (raw : String) (m₀ : Nat) (l : List String) : Nat :=
  l.foldl (fun m c => min m (candDist raw c)) m₀

/-! ## Store and dict lemmas -/

theorem storeGet_storePop (st : Store) (uid : Nat) : storeGet (storePop st uid) uid = none := by
  induction st with
  | nil => rfl
  | cons p rest ih =>
    obtain ⟨u, s⟩ := p
    by_cases h : u = uid
    · simpa [storePop, List.filter_cons, h] using ih
    · simpa [storePop, List.filter_cons, h, storeGet] using ih

theorem storeGet_storeSet (st : Store) (uid : Nat) (s : Session) :
    storeGet (storeSet st uid s) uid = some s := by
  induction st with
  | nil => simp [storeSet, storeGet]
  | cons p rest ih =>
    obtain ⟨u, s'⟩ := p
    by_cases h : u = uid
    · simp [storeSet, storeGet, h]
    · simpa [storeSet, storeGet, h] using ih

theorem dictLookup_dictInsert (k b : String) (v : Nat) (d : List (String × Nat)) :
    dictLookup b (dictInsert k v d) = if k = b then some v else dictLookup b d := by
  induction d with
  | nil => simp [dictInsert, dictLookup]
  | cons p rest ih =>
    obtain ⟨k', v'⟩ := p
    by_cases hk : k' = k
    · subst hk
      by_cases hb : k' = b <;> simp [dictInsert, dictLookup, hb]
    · by_cases hb : k' = b
      · subst hb
        have : ¬ k = k' := fun h => hk h.symm
        simp [dictInsert, dictLookup, hk, this]
      · simp [dictInsert, dictLookup, hk, hb, ih]

/-! ## Characterization of the fuzzy-matching loop -/

theorem fuzzyStep_none (raw c : String) :
    fuzzyStep raw (none, none) c = (some c, some (candDist raw c)) := rfl

theorem fuzzyStep_some (raw b₀ : String) (m₀ : Nat) (c : String) :
    fuzzyStep raw (some b₀, some m₀) c =
      if candDist raw c < m₀ then (some c, some (candDist raw c)) else (some b₀, some m₀) := rfl

theorem runMin_cons (raw : String) (m₀ : Nat) (c : String) (cs : List String) :
    runMin raw m₀ (c :: cs) = runMin raw (min m₀ (candDist raw c)) cs := rfl

theorem runMin_le_init (raw : String) :
    ∀ (l : List String) (m₀ : Nat), runMin raw m₀ l ≤ m₀ := by
  intro l
  induction l with
  | nil => intro m₀; exact le_refl _
  | cons c cs ih =>
    intro m₀
    exact le_trans (ih (min m₀ (candDist raw c))) (min_le_left _ _)

theorem runMin_le_mem (raw : String) :
    ∀ (l : List String) (m₀ : Nat) (c : String), c ∈ l → runMin raw m₀ l ≤ candDist raw c := by
  intro l
  induction l with
  | nil => intro m₀ c hc; cases hc
  | cons a as ih =>
    intro m₀ c hc
    rcases List.mem_cons.mp hc with h | h
    · subst h
      exact le_trans (runMin_le_init raw as _) (min_le_right _ _)
    · exact ih _ c h

/-- The fuzzy loop started from an already-initialised accumulator returns
the running minimum, and the reported best match is the first entry
attaining it (ties keep the earlier entry because only a strictly smaller
distance updates the accumulator). -/
theorem fuzzyFold_char (raw : String) :
    ∀ (l : List String) (b₀ : String) (m₀ : Nat),
      ∃ b, l.foldl (fuzzyStep raw) (some b₀, some m₀) = (some b, some (runMin raw m₀ l)) ∧
        (runMin raw m₀ l < m₀ →
          l.find? (fun c => candDist raw c == runMin raw m₀ l) = some b) ∧
        (¬ runMin raw m₀ l < m₀ → b = b₀) := by
  intro l
  induction l with
  | nil =>
    intro b₀ m₀
    exact ⟨b₀, rfl, fun h => absurd h (lt_irrefl _), fun _ => rfl⟩
  | cons c cs ih =>
    intro b₀ m₀
    by_cases hd : candDist raw c < m₀
    · obtain ⟨b, hfold, hfind, hkeep⟩ := ih c (candDist raw c)
      have hmin : min m₀ (candDist raw c) = candDist raw c := min_eq_right (le_of_lt hd)
      have hrun : runMin raw m₀ (c :: cs) = runMin raw (candDist raw c) cs := by
        rw [runMin_cons, hmin]
      have hle : runMin raw (candDist raw c) cs ≤ candDist raw c := runMin_le_init raw cs _
      refine ⟨b, ?_, ?_, ?_⟩
      · rw [List.foldl_cons, fuzzyStep_some, if_pos hd, hfold, hrun]
      · intro _
        rw [hrun]
        by_cases hm : runMin raw (candDist raw c) cs < candDist raw c
        · have hpc : (candDist raw c == runMin raw (candDist raw c) cs) = false := by
            simp only [beq_eq_false_iff_ne, ne_eq]
            omega
          simp only [List.find?_cons, hpc]
          exact hfind hm
        · have heq : runMin raw (candDist raw c) cs = candDist raw c :=
            le_antisymm hle (not_lt.mp hm)
          have hpc : (candDist raw c == runMin raw (candDist raw c) cs) = true := by
            simp only [beq_iff_eq]
            omega
          simp only [List.find?_cons, hpc, hkeep hm]
      · intro hcon
        exact absurd (lt_of_le_of_lt (hrun ▸ hle) hd) hcon
    · obtain ⟨b, hfold, hfind, hkeep⟩ := ih b₀ m₀
      have hmin : min m₀ (candDist raw c) = m₀ := min_eq_left (not_lt.mp hd)
      have hrun : runMin raw m₀ (c :: cs) = runMin raw m₀ cs := by
        rw [runMin_cons, hmin]
      refine ⟨b, ?_, ?_, ?_⟩
      · rw [List.foldl_cons, fuzzyStep_some, if_neg hd, hfold, hrun]
      · intro hlt
        rw [hrun] at hlt ⊢
        have hpc : (candDist raw c == runMin raw m₀ cs) = false := by
          simp only [beq_eq_false_iff_ne, ne_eq]
          omega
        simp only [List.find?_cons, hpc]
        exact hfind hlt
      · intro hge
        rw [hrun] at hge
        exact hkeep hge

/-- The fuzzy loop over the whole catalog: the reported distance is the
minimum over all entries, and the reported best match is the first catalog
entry attaining that minimum. -/
theorem fuzzyBest_char (raw c₀ : String) (rest : List String)
    (hcat : DEFAULT_CANDIDATES = c₀ :: rest) :
    ∃ b m, fuzzyBest raw = (some b, some m) ∧
      (∀ c ∈ DEFAULT_CANDIDATES, m ≤ candDist raw c) ∧
      DEFAULT_CANDIDATES.find? (fun c => candDist raw c == m) = some b := by
  obtain ⟨b, hfold, hfind, hkeep⟩ := fuzzyFold_char raw rest c₀ (candDist raw c₀)
  have hle : runMin raw (candDist raw c₀) rest ≤ candDist raw c₀ := runMin_le_init raw rest _
  refine ⟨b, runMin raw (candDist raw c₀) rest, ?_, ?_, ?_⟩
  · rw [fuzzyBest, hcat, List.foldl_cons, fuzzyStep_none, hfold]
  · intro c hc
    rw [hcat] at hc
    rcases List.mem_cons.mp hc with h | h
    · subst h; exact hle
    · exact runMin_le_mem raw rest _ c h
  · rw [hcat]
    by_cases hm : runMin raw (candDist raw c₀) rest < candDist raw c₀
    · have hpc : (candDist raw c₀ == runMin raw (candDist raw c₀) rest) = false := by
        simp only [beq_eq_false_iff_ne, ne_eq]
        omega
      simp only [List.find?_cons, hpc]
      exact hfind hm
    · have heq : runMin raw (candDist raw c₀) rest = candDist raw c₀ :=
        le_antisymm hle (not_lt.mp hm)
      have hpc : (candDist raw c₀ == runMin raw (candDist raw c₀) rest) = true := by
        simp only [beq_iff_eq]
        omega
      simp only [List.find?_cons, hpc, hkeep hm]

/-! ## Claim theorems -/

/-- C2: for every input line whose name part parses, extraction resolves
the name by computing the case-insensitive Levenshtein distance to every
catalog entry, selects the entry with minimum distance breaking ties in
favor of the first catalog entry in catalog order, records the pair exactly
when that minimum distance is at most 2, and otherwise discards the line
without failing (the pipeline is total and simply yields `none`). -/
theorem C2_fuzzy_min_and_threshold (line raw : String) (v : Nat)
    (hp : parseLine line = some (raw, v)) :
    ∃ b m, fuzzyBest raw = (some b, some m) ∧
      (∀ c ∈ DEFAULT_CANDIDATES, m ≤ candDist raw c) ∧
      DEFAULT_CANDIDATES.find? (fun c => candDist raw c == m) = some b ∧
      lineResolve line = if m ≤ 2 then some (b, v) else none := by
  obtain ⟨b, m, hfb, hmin, hfind⟩ := fuzzyBest_char raw "Tobias"
    ["Chilungo", "Chakwera", "Nankhumwa", "Bandawe", "Banda",
     "Muluzi", "Kaliya", "Mutharika", "Mwenifumbo", "Kabambe", "Chibambo",
     "Swira", "Mbewe", "Chilumpha", "Chipojola", "Dube"] rfl
  refine ⟨b, m, hfb, hmin, hfind, ?_⟩
  simp [lineResolve, hp, hfb]

/-- Witness for `C2_fuzzy_min_and_threshold` on Scenario B (a one-character
typo resolves to `Chakwera` at distance 1 and is recorded). -/
theorem C2_fuzzy_min_and_threshold_witness :
    (∃ b m, fuzzyBest "Chakweraa" = (some b, some m) ∧
      (∀ c ∈ DEFAULT_CANDIDATES, m ≤ candDist "Chakweraa" c) ∧
      DEFAULT_CANDIDATES.find? (fun c => candDist "Chakweraa" c == m) = some b ∧
      lineResolve "Chakweraa: 500" = if m ≤ 2 then some (b, 500) else none) ∧
    lineResolve "Chakweraa: 500" = some ("Chakwera", 500) :=
  ⟨C2_fuzzy_min_and_threshold "Chakweraa: 500" "Chakweraa" 500 (by decide), by decide⟩

theorem lineStep_resolve_none (m : List (String × Nat)) (line : String)
    (h : lineResolve line = none) : lineStep m line = m := by
  simp [lineStep, h]

theorem lineStep_resolve_some (m : List (String × Nat)) (line b : String) (v : Nat)
    (h : lineResolve line = some (b, v)) : lineStep m line = dictInsert b v m := by
  simp [lineStep, h]

/-- The extraction fold, looked up at one key: the value is the count of the
last line resolving to that key, falling back to the initial dict. -/
theorem extract_lookup_gen (b : String) :
    ∀ (lines : List String) (m : List (String × Nat)),
      dictLookup b (lines.foldl lineStep m) =
        match lastFor b (lines.filterMap lineResolve) with
        | some v => some v
        | none => dictLookup b m := by
  intro lines
  induction lines with
  | nil => intro m; rfl
  | cons line rest ih =>
    intro m
    rw [List.foldl_cons]
    cases hres : lineResolve line with
    | none =>
      rw [lineStep_resolve_none m line hres, ih m]
      simp [List.filterMap_cons, hres]
    | some p =>
      obtain ⟨k, v⟩ := p
      rw [lineStep_resolve_some m line k v hres, ih]
      simp only [List.filterMap_cons, hres]
      cases hlast : lastFor b (rest.filterMap lineResolve) with
      | some u => simp [lastFor, hlast]
      | none =>
        simp only [lastFor, hlast]
        rw [dictLookup_dictInsert]
        by_cases hkb : k = b <;> simp [hkb]

/-- C3: the mapping extraction returns contains exactly the catalog entries
matched by some line — looking up `b` yields the count (thousands
separators stripped, as parsed by `lineResolve`) of the last line resolving
to `b`, and `none` when no line resolves to `b`, so unmatched lines
contribute nothing; Scenario A is the concrete instance
`"Chakwera: 12,345\nMutharika 9000\n???"`. -/
theorem C3_extract_exact_mapping :
    (∀ text b, dictLookup b (extract_votes text) =
      lastFor b ((linesOf text).filterMap lineResolve)) ∧
    extract_votes "Chakwera: 12,345\nMutharika 9000\n???" =
      [("Chakwera", 12345), ("Mutharika", 9000)] := by
  constructor
  · intro text b
    rw [extract_votes, extract_lookup_gen]
    cases lastFor b ((linesOf text).filterMap lineResolve) <;> rfl
  · decide

/-- C1: in every state, an event whose shape is invalid in that state — an
unrecognized menu token, or a non-integer where an integer count is
expected — leaves the session store (hence the stored tally, region,
district and edit target) untouched and returns the same state. -/
theorem C1_invalid_input_no_advance (w : World) (st : Store) (uid : Nat) (sess : Session)
    (data text : String) (hs : storeGet st uid = some sess) :
    (data ≠ "mode_image" → data ≠ "mode_text" → data ≠ "cancel" →
      step w st uid .CHOOSE_INPUT_MODE (Event.callback data) =
        .ok ⟨st, .CHOOSE_INPUT_MODE, ["Please choose a valid option."]⟩) ∧
    (data ≠ "bulk_edit" → data ≠ "edit_individual" → data ≠ "add_candidate" →
     data ≠ "remove_candidate" → data ≠ "submit_votes" → data ≠ "back_edit_menu" →
     data ≠ "cancel" →
      step w st uid .EDIT_MENU (Event.callback data) =
        .ok ⟨st, .EDIT_MENU, ["Please select a valid option."]⟩) ∧
    (¬ pyStartswith data "edit_" → data ≠ "back_edit_menu" → data ≠ "cancel" →
      step w st uid .EDIT_SINGLE_CANDIDATE (Event.callback data) =
        .ok ⟨st, .EDIT_SINGLE_CANDIDATE, ["Please select a valid candidate or option."]⟩) ∧
    (∀ c, sess.candidate_to_edit = some c → c ≠ "" →
     pyIsdigit (pyStrip text).toList = false →
      step w st uid .EDIT_SINGLE_CANDIDATE (Event.message text) =
        .ok ⟨st, .EDIT_SINGLE_CANDIDATE, ["Please send a valid integer vote count."]⟩) ∧
    (¬ pyStartswith data "remove_" → data ≠ "back_edit_menu" → data ≠ "cancel" →
      step w st uid .REMOVE_CANDIDATE_NAME (Event.callback data) =
        .ok ⟨st, .REMOVE_CANDIDATE_NAME, ["Please select a valid candidate or option."]⟩) ∧
    (¬ pyStartswith data "region_" → data ≠ "cancel" →
      step w st uid .SELECT_REGION (Event.callback data) =
        .ok ⟨st, .SELECT_REGION, ["Please select a region."]⟩) ∧
    (¬ pyStartswith data "district_" → data ≠ "back_to_regions" → data ≠ "cancel" →
      step w st uid .SELECT_DISTRICT (Event.callback data) =
        .ok ⟨st, .SELECT_DISTRICT, ["Please select a district."]⟩) ∧
    (data ≠ "override_yes" → data ≠ "override_no" →
      step w st uid .CONFIRM_OVERRIDE (Event.callback data) =
        .ok ⟨st, .CONFIRM_OVERRIDE, ["Please choose an option."]⟩) := by
  refine ⟨?_, ?_, ?_, ?_, ?_, ?_, ?_, ?_⟩
  · intro h1 h2 h3
    simp [step, choose_input_mode_handler, h1, h2, h3]
  · intro h1 h2 h3 h4 h5 h6 h7
    simp [step, edit_menu_handler, h1, h2, h3, h4, h5, h6, h7]
  · intro h1 h2 h3
    simp [step, edit_single_candidate_handler, h1, h2, h3]
  · intro c hc hne hdig
    simp only [String.toList] at hdig
    simp [step, receive_single_candidate_vote, hs, hc, hne, hdig]
  · intro h1 h2 h3
    simp [step, remove_candidate_name_handler, h1, h2, h3]
  · intro h1 h2
    simp [step, select_region_handler, h1, h2]
  · intro h1 h2 h3
    simp [step, select_district_handler, h1, h2, h3, hs]
  · intro h1 h2
    simp [step, confirm_override_handler, h1, h2]

/-- Witness for `C1_invalid_input_no_advance` at a concrete unrecognized
menu token and a concrete non-integer count. -/
theorem C1_invalid_input_no_advance_witness :
    step wOk [(1, sessFull)] 1 .EDIT_MENU (Event.callback "bogus") =
      .ok ⟨[(1, sessFull)], .EDIT_MENU, ["Please select a valid option."]⟩ ∧
    step wOk [(1, sessFull)] 1 .EDIT_SINGLE_CANDIDATE (Event.message "ten votes") =
      .ok ⟨[(1, sessFull)], .EDIT_SINGLE_CANDIDATE,
        ["Please send a valid integer vote count."]⟩ := by
  have h := C1_invalid_input_no_advance wOk [(1, sessFull)] 1 sessFull "bogus" "ten votes" rfl
  exact ⟨h.2.1 (by decide) (by decide) (by decide) (by decide) (by decide) (by decide)
      (by decide),
    h.2.2.2.1 "Banda" rfl (by decide) (by decide)⟩

/-- C5 is false on the code for two of the three failure kinds: a
recognition (OCR) failure is reported but the workflow is NOT aborted — the
machine stays in the image-wait state and the session survives — and an
already-submitted-districts query failure is swallowed entirely: no
user-visible message mentions it and the workflow proceeds to district
selection with the session intact. -/
theorem C5_counterexample :
    (step wFail [(1, sessFull)] 1 .WAIT_FOR_IMAGE Event.photo =
      .ok ⟨[(1, sessFull)], .WAIT_FOR_IMAGE,
        ["Processing image, please wait...",
         "OCR failed to extract text. Please try again or send text directly."]⟩ ∧
     storeGet [(1, sessFull)] 1 = some sessFull) ∧
    step wFail [(1, sessFull)] 1 .SELECT_REGION (Event.callback "region_Central") =
      .ok ⟨[(1, { candidates := [("Chakwera", 12345), ("Mutharika", 9000)],
                  region := some "Central", district := some "Lilongwe",
                  votes_confirmed := false, candidate_to_edit := some "Banda" })],
        .SELECT_DISTRICT,
        ["Region \x27Central\x27 selected.\nNow choose a district:"]⟩ :=
  ⟨⟨rfl, rfl⟩, rfl⟩

/-- C5 amended: only a submission failure is surfaced as a user-visible
failure message with the workflow aborted and the session torn down; a
recognition failure is reported but merely re-prompts in the image-wait
state with the session retained, and an already-submitted-districts query
failure is silently converted to the empty district list (reported to no
one, workflow continues). -/
theorem C5_amended (w : World) (st : Store) (uid : Nat) (sess : Session)
    (hocr : w.ocrOutcome = none) (hq : w.districtsQuery = none)
    (hs : storeGet st uid = some sess)
    (hr : pyTruthy sess.region = true) (hd : pyTruthy sess.district = true)
    (hv : sess.candidates ≠ []) (hfail : w.sheetSuccess = false) :
    (step w st uid .WAIT_FOR_IMAGE Event.photo =
      .ok ⟨st, .WAIT_FOR_IMAGE,
        ["Processing image, please wait...",
         "OCR failed to extract text. Please try again or send text directly."]⟩) ∧
    get_submitted_districts w = [] ∧
    submit_data w st uid =
      .ok ⟨storePop st uid, .END,
        ["‚è≥ Submitting data, please wait...",
         "‚ùå Failed to submit data: " ++ w.sheetMessage.getD "Unknown error" ++
           "\nPlease try again."]⟩ ∧
    storeGet (storePop st uid) uid = none := by
  have hie : sess.candidates.isEmpty = false := by
    cases hv' : sess.candidates with
    | nil => exact absurd hv' hv
    | cons a l => rfl
  refine ⟨?_, ?_, ?_, storeGet_storePop st uid⟩
  · simp [step, receive_photo_handler, hocr]
  · simp [get_submitted_districts, hq]
  · simp [submit_data, hs, hr, hd, hie, hfail]

/-- Witness for `C5_amended` in the all-failures world with a complete
session. -/
theorem C5_amended_witness :
    (step wFail [(1, sessFull)] 1 .WAIT_FOR_IMAGE Event.photo =
      .ok ⟨[(1, sessFull)], .WAIT_FOR_IMAGE,
        ["Processing image, please wait...",
         "OCR failed to extract text. Please try again or send text directly."]⟩) ∧
    get_submitted_districts wFail = [] ∧
    submit_data wFail [(1, sessFull)] 1 =
      .ok ⟨storePop [(1, sessFull)] 1, .END,
        ["‚è≥ Submitting data, please wait...",
         "‚ùå Failed to submit data: " ++ wFail.sheetMessage.getD "Unknown error" ++
           "\nPlease try again."]⟩ ∧
    storeGet (storePop [(1, sessFull)] 1) 1 = none :=
  C5_amended wFail [(1, sessFull)] 1 sessFull rfl rfl rfl (by decide) (by decide)
    (by decide) rfl

/-- C7 is false on the code: a handler that dereferences a missing session
raises `KeyError` instead of reporting expiry — here the edit-individual
branch of the edit menu, invoked with an empty session store. -/
theorem C7_counterexample :
    step wOk [] 1 .EDIT_MENU (Event.callback "edit_individual") = .error .keyError := rfl

/-- C7 amended: only `submit_data` guards against a missing session — it
reports session expiry and forces the terminal state, also when reached
through the override-confirmation path — while the other handlers that
dereference a missing session raise an uncaught `KeyError`. -/
theorem C7_amended (w : World) (st : Store) (uid : Nat) (hs : storeGet st uid = none) :
    submit_data w st uid =
      .ok ⟨st, .END, ["‚ö†Ô∏è Session expired. Use /start to begin again."]⟩ ∧
    step w st uid .CONFIRM_OVERRIDE (Event.callback "override_yes") =
      .ok ⟨st, .END,
        ["Overriding previous data. Submitting now...",
         "‚ö†Ô∏è Session expired. Use /start to begin again."]⟩ ∧
    step w st uid .EDIT_MENU (Event.callback "edit_individual") = .error .keyError ∧
    step w st uid .EDIT_MENU (Event.callback "back_edit_menu") = .error .keyError ∧
    step w st uid .SELECT_REGION (Event.callback "region_Central") = .error .keyError := by
  refine ⟨?_, ?_, ?_, ?_, ?_⟩
  · simp [submit_data, hs]
  · simp [step, confirm_override_handler, prependMsg, submit_data, hs]
  · simp [step, edit_menu_handler, hs]
  · simp [step, edit_menu_handler, hs]
  · have hsw : pyStartswith "region_Central" "region_" = true := by decide
    simp [step, select_region_handler, hsw, hs]

/-- Witness for `C7_amended` with an empty session store. -/
theorem C7_amended_witness :
    submit_data wOk [] 1 =
      .ok ⟨[], .END, ["‚ö†Ô∏è Session expired. Use /start to begin again."]⟩ ∧
    step wOk [] 1 .CONFIRM_OVERRIDE (Event.callback "override_yes") =
      .ok ⟨[], .END,
        ["Overriding previous data. Submitting now...",
         "‚ö†Ô∏è Session expired. Use /start to begin again."]⟩ ∧
    step wOk [] 1 .EDIT_MENU (Event.callback "edit_individual") = .error .keyError ∧
    step wOk [] 1 .EDIT_MENU (Event.callback "back_edit_menu") = .error .keyError ∧
    step wOk [] 1 .SELECT_REGION (Event.callback "region_Central") = .error .keyError :=
  C7_amended wOk [] 1 rfl

/-- C6: from every state of the conversation machine, the cancellation
command removes the acting user's session entirely from the session store
and moves to the terminal state, so a subsequent lookup of that user's
session finds nothing. -/
theorem C6_cancel_removes_session (w : World) (st : Store) (uid : Nat) (state : BotState) :
    step w st uid state (Event.command "cancel") =
      .ok ⟨storePop st uid, .END, ["Operation cancelled. Use /start to begin again. üôè"]⟩ ∧
    storeGet (storePop st uid) uid = none :=
  ⟨rfl, storeGet_storePop st uid⟩

/-- C8 is false on the code: terminating via the fallback path for an
unrecognized top-level command ends the conversation but does NOT remove the
acting user's session from the store — a subsequent lookup still finds it. -/
theorem C8_counterexample :
    step wFail [(1, sessBare)] 1 .EDIT_MENU (Event.command "help") =
      .ok ⟨[(1, sessBare)], .END,
        ["Sorry, I didn\x27t understand that. Please use /start to begin."]⟩ ∧
    storeGet [(1, sessBare)] 1 = some sessBare :=
  ⟨rfl, rfl⟩

/-- C8 amended: when the workflow terminates via the fallback path for an
unrecognized top-level command, the machine moves to the terminal state but
the acting user's session is left untouched in the session store (unlike
cancellation and submission, the fallback performs no teardown). -/
theorem C8_amended (w : World) (st : Store) (uid : Nat) (state : BotState) (name : String)
    (h1 : name ≠ "start") (h2 : name ≠ "cancel") :
    step w st uid state (Event.command name) =
      .ok ⟨st, .END, ["Sorry, I didn\x27t understand that. Please use /start to begin."]⟩ := by
  simp [step, h1, h2, fallback_handler]

/-- Witness for `C8_amended` at a concrete unrecognized command. -/
theorem C8_amended_witness :
    step wFail [(1, sessBare)] 1 .EDIT_MENU (Event.command "help") =
      .ok ⟨[(1, sessBare)], .END,
        ["Sorry, I didn\x27t understand that. Please use /start to begin."]⟩ :=
  C8_amended wFail [(1, sessBare)] 1 .EDIT_MENU "help" (by decide) (by decide)

/-- C4 is false on the code as far as teardown goes: invoking `submit_data`
on a session missing its region (and district) fails immediately with the
incomplete-data outcome and never contacts storage, but the session is NOT
removed from the session store — the lookup afterwards still finds it. -/
theorem C4_counterexample :
    submit_data wOk [(1, sessBare)] 1 =
      .ok ⟨[(1, sessBare)], .END, ["‚ùå Incomplete data. Please restart with /start."]⟩ ∧
    storeGet [(1, sessBare)] 1 = some sessBare :=
  ⟨rfl, rfl⟩

/-- C4 amended: if `submit_data` is invoked on a session whose region,
district, or tally is missing/empty, it fails immediately with the
incomplete-data outcome and the conversation ends; the external storage
collaborator is not contacted (the result is the same for every world `w`),
but the session is left in the session store rather than torn down. -/
theorem C4_amended (w : World) (st : Store) (uid : Nat) (sess : Session)
    (hs : storeGet st uid = some sess)
    (hinc : pyTruthy sess.region = false ∨ pyTruthy sess.district = false ∨
      sess.candidates = []) :
    submit_data w st uid =
      .ok ⟨st, .END, ["‚ùå Incomplete data. Please restart with /start."]⟩ := by
  have hcond : (pyTruthy sess.region && pyTruthy sess.district &&
      !sess.candidates.isEmpty) = false := by
    rcases hinc with h | h | h <;> simp [h]
  simp [submit_data, hs, hcond]

/-- Witness for `C4_amended` on a concrete incomplete session. -/
theorem C4_amended_witness :
    submit_data wOk [(1, sessBare)] 1 =
      .ok ⟨[(1, sessBare)], .END, ["‚ùå Incomplete data. Please restart with /start."]⟩ :=
  C4_amended wOk [(1, sessBare)] 1 sessBare rfl (Or.inl rfl)

/-- C9: if two accepted lines of the same extraction input resolve to the
same catalog name, the earlier line's count is recorded first and the later
line's count silently overwrites it in the result mapping; no conflict or
error is raised (the step is total and returns an updated dict). -/
theorem C9_last_write_wins (text l₁ l₂ b : String) (v₁ v₂ : Nat)
    (hl : linesOf text = [l₁, l₂])
    (h₁ : lineResolve l₁ = some (b, v₁)) (h₂ : lineResolve l₂ = some (b, v₂)) :
    (∀ matched : List (String × Nat),
      dictLookup b (lineStep matched l₁) = some v₁ ∧
      dictLookup b (lineStep (lineStep matched l₁) l₂) = some v₂) ∧
    dictLookup b (extract_votes text) = some v₂ := by
  have hstep : ∀ matched : List (String × Nat),
      dictLookup b (lineStep matched l₁) = some v₁ ∧
      dictLookup b (lineStep (lineStep matched l₁) l₂) = some v₂ := by
    intro matched
    constructor
    · simp [lineStep, h₁, dictLookup_dictInsert]
    · simp [lineStep, h₁, h₂, dictLookup_dictInsert]
  refine ⟨hstep, ?_⟩
  rw [extract_votes, hl]
  exact (hstep []).2

/-- Witness for `C9_last_write_wins` on a concrete duplicated candidate. -/
theorem C9_last_write_wins_witness :
    dictLookup "Chakwera" (extract_votes "Chakwera: 100\nChakwera: 200") = some 200 :=
  (C9_last_write_wins "Chakwera: 100\nChakwera: 200" "Chakwera: 100" "Chakwera: 200"
    "Chakwera" 100 200 (by decide) (by decide) (by decide)).2

/-- C10: `/start` initializes the session tally to exactly the catalog
candidates, each with count 0; and whenever extraction succeeds (non-empty
result) in the text or image input state, the session tally is replaced
wholesale by the extraction result — the new candidates field is exactly
`extract_votes`'s output, for every previous session content `sess`. -/
theorem C10_tally_init_and_replacement (w : World) (st : Store) (uid : Nat) (sess : Session)
    (text imgText : String) (hs : storeGet st uid = some sess)
    (htext : extract_votes text ≠ [])
    (hw : w.ocrOutcome = some imgText) (himg : imgText ≠ "")
    (hocr : extract_votes imgText ≠ []) :
    (∃ r, start st uid = .ok r ∧
      storeGet r.store uid = some
        { candidates := DEFAULT_CANDIDATES.map (fun c => (c, 0)),
          region := none, district := none, votes_confirmed := false,
          candidate_to_edit := none }) ∧
    (∃ r, receive_text_handler st uid text = .ok r ∧
      storeGet r.store uid = some { sess with candidates := extract_votes text }) ∧
    (∃ r, receive_photo_handler w st uid = .ok r ∧
      storeGet r.store uid = some { sess with candidates := extract_votes imgText }) := by
  have hie : (extract_votes text).isEmpty = false := by
    cases hv : extract_votes text with
    | nil => exact absurd hv htext
    | cons a l => rfl
  have hie' : (extract_votes imgText).isEmpty = false := by
    cases hv : extract_votes imgText with
    | nil => exact absurd hv hocr
    | cons a l => rfl
  have h2 : receive_text_handler st uid text =
      .ok ⟨storeSet st uid { sess with candidates := extract_votes text }, .EDIT_MENU,
        ["Parsed votes:\n" ++ renderVotes (extract_votes text)]⟩ := by
    simp [receive_text_handler, hie, hs]
  have h3 : receive_photo_handler w st uid =
      .ok ⟨storeSet st uid { sess with candidates := extract_votes imgText }, .EDIT_MENU,
        ["Processing image, please wait...",
         "Parsed votes:\n" ++ renderVotes (extract_votes imgText)]⟩ := by
    simp [receive_photo_handler, hw, himg, hie', hs]
  exact ⟨⟨_, rfl, storeGet_storeSet st uid _⟩,
    ⟨_, h2, storeGet_storeSet st uid _⟩,
    ⟨_, h3, storeGet_storeSet st uid _⟩⟩

/-- Witness for `C10_tally_init_and_replacement` with concrete text and
image inputs. -/
theorem C10_tally_init_and_replacement_witness :
    (∃ r, start [(1, sessFull)] 1 = .ok r ∧
      storeGet r.store 1 = some
        { candidates := DEFAULT_CANDIDATES.map (fun c => (c, 0)),
          region := none, district := none, votes_confirmed := false,
          candidate_to_edit := none }) ∧
    (∃ r, receive_text_handler [(1, sessFull)] 1 "Banda 3" = .ok r ∧
      storeGet r.store 1 = some { sessFull with candidates := extract_votes "Banda 3" }) ∧
    (∃ r, receive_photo_handler wOk [(1, sessFull)] 1 = .ok r ∧
      storeGet r.store 1 = some { sessFull with candidates := extract_votes "Chakwera: 7" }) :=
  C10_tally_init_and_replacement wOk [(1, sessFull)] 1 sessFull "Banda 3" "Chakwera: 7"
    rfl (by decide) rfl (by decide) (by decide)

end VoteBot
